import Mathlib

/-!
Verification development for the remote tool-invocation client
(`python/terminal-mcp-orchestrator/mcp_client.py`, class `MCPClient`).

The client is shallowly embedded as pure Lean functions over an explicit
`ClientState`.  The background SSE listener thread is modelled by an explicit
step function (`listener_step`, one iteration of the listener's event loop)
and a bounded run (`listener_run`) describing the events the listener
processes while a caller blocks on a wait primitive; transport outcomes of
the individual HTTP requests are passed in as `Except` parameters.

Python-value conventions used throughout:
* JSON values decoded by `json.loads` are modelled by `Json` (numbers as
  integers; floating point is outside the modelled boundary).
* Python `None` is `Option.none`; attributes initialised to `None` are
  `Option Json`.
* Python truthiness of such attributes is `pyTruthy` / `Json.truthy`.
* Python dicts keyed by values taken from decoded events are modelled as
  functions `PyKey → Option V`; `PyKey` covers exactly the hashable values
  that can appear as keys here (`None`, numbers — with `True`/`False`
  collapsing to `1`/`0` as in Python — and strings).  An unhashable key
  (`list`/`dict`) raises `TypeError` in Python, modelled by the `crash`
  loop control (the exception is caught by the listener's outer handler).
-/

/-- A decoded JSON value (the result of a successful `json.loads`). -/
inductive Json where
  | null
  | bool (b : Bool)
  | num (n : Int)
  | str (s : String)
  | arr (xs : List Json)
  | obj (fields : List (String × Json))

/-- Python truthiness of a JSON-decoded value. -/
def Json.truthy : Json → Bool
  | Json.null => false
  | Json.bool b => b
  | Json.num n => n != 0
  | Json.str s => !s.isEmpty
  | Json.arr xs => !xs.isEmpty
  | Json.obj fs => !fs.isEmpty

/-- Python truthiness of an attribute that is either `None` or a JSON value
(`if not self.client_id`, `if self.tools_cache`). -/
def pyTruthy : Option Json → Bool
  | none => false
  | some j => j.truthy

/-- `d.get(k)` on a decoded JSON object: the first binding of `k`, if any
(decoded dicts have no duplicate keys). -/
def Json.getKey : List (String × Json) → String → Option Json
  | [], _ => none
  | (k, v) :: rest, q => if k == q then some v else Json.getKey rest q

/-- `data.get("type") == tag` for a decoded object: Python equality of the
looked-up value with the string `tag` (true only for an equal string). -/
def isTypeTag (fs : List (String × Json)) (tag : String) : Bool :=
  match Json.getKey fs "type" with
  | some (Json.str s) => s == tag
  | _ => false

/-- A hashable Python value used as a dict key in the client
(`message_id` strings from `invoke_tool`, `data.get("id")` from events).
`True`/`False` are the numbers `1`/`0`, as in Python. -/
inductive PyKey where
  | none
  | num (n : Int)
  | str (s : String)
  deriving DecidableEq

/-- The dict key denoted by `data.get("id")`: `Option.none` (key absent) and
JSON `null` are both Python `None`; booleans collapse to numbers; a `list` or
`dict` value is unhashable (`TypeError`), yielding no key. -/
def pyKeyOf : Option Json → Option PyKey
  | Option.none => some PyKey.none
  | some Json.null => some PyKey.none
  | some (Json.bool b) => some (PyKey.num (if b then 1 else 0))
  | some (Json.num n) => some (PyKey.num n)
  | some (Json.str s) => some (PyKey.str s)
  | some (Json.arr _) => Option.none
  | some (Json.obj _) => Option.none

/-- A Python dict with hashable keys, as a lookup function. -/
def PyDict (V : Type) : Type := PyKey → Option V

/-- The empty dict (`{}`). -/
def emptyDict {V : Type} : PyDict V := fun _ => Option.none

/-- `d[k] = v` (insert or overwrite). -/
def dinsert {V : Type} (m : PyDict V) (k : PyKey) (v : V) : PyDict V :=
  fun q => if q = k then some v else m q

/-- `del d[k]`. -/
def derase {V : Type} (m : PyDict V) (k : PyKey) : PyDict V :=
  fun q => if q = k then Option.none else m q

/-- The set/unset flag of the `threading.Event` stored under `k`
(`False` when no entry exists; callers only query keys they registered). -/
def eventSetAt (m : PyDict Bool) (k : PyKey) : Bool :=
  (m k).getD false

/-- The mutable attributes of an `MCPClient` instance (its `__init__` fields;
`sse_thread` records only whether a listener thread object exists). -/
structure ClientState where
  client_id : Option Json
  running : Bool
  connected : Bool
  tools_cache : Option Json
  tool_results : PyDict Json
  tool_events : PyDict Bool
  connection_event : Bool
  sse_thread : Bool

/-- The state built by `MCPClient.__init__`. -/
def initialState : ClientState :=
  { client_id := Option.none
    running := false
    connected := false
    tools_cache := Option.none
    tool_results := emptyDict
    tool_events := emptyDict
    connection_event := false
    sse_thread := false }

/-- The data field of one SSE event, after the `json.loads` attempt:
`malformed` raw text raises `JSONDecodeError`, `parsed` yields a value. -/
inductive RawData where
  | malformed (raw : String)
  | parsed (j : Json)

/-- One SSE event as seen by the listener loop; `Option.none` models falsy
`event.data` (an empty data field), which the loop skips. -/
abbrev SSEEvent := Option RawData

/-- Control flow of one listener-loop iteration: continue to the next event,
`break` out of the loop, or raise an exception caught by the listener's
outer handler. -/
inductive LoopCtl where
  | cont
  | brk
  | crash

/-- The body of the listener's per-event `try` block once `json.loads`
succeeded with value `j` (source lines 87–105).  A non-dict value makes
`data.get` raise `AttributeError`; an unhashable `data.get("id")` makes the
dict store raise `TypeError`; both propagate to the outer handler. -/
def handle_json (st : ClientState) (j : Json) : ClientState × LoopCtl :=
  match j with
  | Json.obj fs =>
    if isTypeTag fs "connected" then
      ({ st with client_id := Json.getKey fs "clientId"
                 connected := true
                 connection_event := true }, LoopCtl.cont)
    else if isTypeTag fs "tool_result" then
      match pyKeyOf (Json.getKey fs "id") with
      | some mid =>
        let st1 := { st with tool_results := dinsert st.tool_results mid j }
        if (st1.tool_events mid).isSome then
          ({ st1 with tool_events := dinsert st1.tool_events mid true }, LoopCtl.cont)
        else
          (st1, LoopCtl.cont)
      | Option.none => (st, LoopCtl.crash)
    else
      (st, LoopCtl.cont)
  | _ => (st, LoopCtl.crash)

/-- One iteration of the listener's `for event in client.events()` loop
(source lines 81–108): exit when `running` was cleared, skip falsy data,
log-and-continue on `JSONDecodeError`, otherwise dispatch the value. -/
def listener_step (st : ClientState) (ev : SSEEvent) : ClientState × LoopCtl :=
  if !st.running then (st, LoopCtl.brk)
  else
    match ev with
    | Option.none => (st, LoopCtl.cont)
    | some (RawData.malformed _) => (st, LoopCtl.cont)
    | some (RawData.parsed j) => handle_json st j

/-- The listener's outer `except` handler (source lines 110–113): clear
`running` and set the handshake event to unblock a pending `connect`. -/
def listener_fail (st : ClientState) : ClientState :=
  { st with running := false, connection_event := true }

/-- The portion of one listener run that a blocked caller observes: events
are processed in order until the caller's wait predicate `stop` becomes true
(the wait primitive fires and the caller resumes); `fails` models a
transport error ending the stream before more events arrive, handled by
`listener_fail`.  A `crash` of one iteration is caught by the same outer
handler. -/
def listener_run (stop : ClientState → Bool) :
    ClientState → List SSEEvent → Bool → ClientState
  | st, [], fails =>
    if stop st then st else if fails then listener_fail st else st
  | st, ev :: rest, fails =>
    if stop st then st
    else
      match listener_step st ev with
      | (st1, LoopCtl.cont) => listener_run stop st1 rest fails
      | (st1, LoopCtl.brk) => st1
      | (st1, LoopCtl.crash) => listener_fail st1

/-- The wait predicate of `connect`: `self.connection_event.wait(timeout)`. -/
def connect_stop (s : ClientState) : Bool := s.connection_event

/-- Outcome of `connect`: the returned `client_id`, or the raised
`TimeoutError("Failed to establish SSE connection within timeout period")`. -/
inductive ConnectResult where
  | ok (cid : Option Json)
  | timeoutFailure

/-- Externally visible side effects of the modelled operations. -/
inductive Effect where
  | startListener
  | register (id : String)
  | postMessages (id : String) (tool : String)
  | getTools

/-- The state after `connect` set `running` and started the listener thread,
followed by the listener activity during the handshake wait. -/
def connect_window (st : ClientState) (window : List SSEEvent) (fails : Bool) :
    ClientState :=
  listener_run connect_stop { st with running := true, sse_thread := true } window fails

/-- `MCPClient.connect(timeout)` (source lines 48–70): return the cached
identity when already connected, else start the listener, block on the
handshake event up to the timeout, and return `client_id` if the event was
signalled, raising `TimeoutError` otherwise.  `window`/`fails` describe the
listener activity within the wait. -/
def connect (st : ClientState) (window : List SSEEvent) (fails : Bool) :
    ClientState × ConnectResult × List Effect :=
  if st.connected then (st, ConnectResult.ok st.client_id, [])
  else
    let st2 := connect_window st window fails
    if st2.connection_event then
      (st2, ConnectResult.ok st2.client_id, [Effect.startListener])
    else
      (st2, ConnectResult.timeoutFailure, [Effect.startListener])

/-- `MCPClient._send_tool_invocation` (source lines 191–221): fail fast with
the not-connected error dict when `client_id` is falsy; otherwise POST to
`/messages`, returning the decoded response body, or an `{"error": str(e)}`
dict when the request raises.  `dispatch` is the transport outcome of that
POST. -/
def send_tool_invocation (st : ClientState) (message_id toolName : String)
    (dispatch : Except String Json) : Json × List Effect :=
  if pyTruthy st.client_id then
    match dispatch with
    | Except.ok body => (body, [Effect.postMessages message_id toolName])
    | Except.error e =>
      (Json.obj [("error", Json.str e)], [Effect.postMessages message_id toolName])
  else
    (Json.obj [("error", Json.str "Not connected. Call connect() first")], [])

/-- Python `"error" in result` on the value returned by
`_send_tool_invocation`: key membership for a dict, element membership for a
list, substring for a string; any other value raises `TypeError`. -/
inductive MemberOutcome where
  | yes
  | no
  | typeErr

/-- Whether a character list starts with `error`. -/
def startsWithError : List Char → Bool
  | 'e' :: 'r' :: 'r' :: 'o' :: 'r' :: _ => true
  | _ => false

/-- Whether a character list contains `error` as a contiguous run. -/
def containsErrorSub : List Char → Bool
  | [] => false
  | c :: rest => startsWithError (c :: rest) || containsErrorSub rest

/-- `"error" in result` (see `MemberOutcome`). -/
def jsonErrorMember : Json → MemberOutcome
  | Json.obj fs =>
    if fs.any (fun p => p.1 == "error") then MemberOutcome.yes else MemberOutcome.no
  | Json.arr xs =>
    if xs.any (fun x => match x with | Json.str s => s == "error" | _ => false) then
      MemberOutcome.yes
    else MemberOutcome.no
  | Json.str s =>
    if containsErrorSub s.toList then MemberOutcome.yes else MemberOutcome.no
  | _ => MemberOutcome.typeErr

/-- Outcome of `invoke_tool`: a directly returned dict (early error return or
the timeout error), the raw correlated payload of the success path (its
content extraction, source lines 177–189, is a pure function of this payload
referenced by no claim), or the uncaught `TypeError` from `"error" in result`
on a non-container acknowledgment. -/
inductive InvokeResult where
  | ret (j : Json)
  | resolvedRaw (payload : Option Json)
  | typeErrorCrash

/-- The `{"error": f"Timeout waiting for tool result after {timeout} seconds"}`
dict returned on a result timeout. -/
def timeoutDict (timeout : Nat) : Json :=
  Json.obj [("error",
    Json.str ("Timeout waiting for tool result after " ++ toString timeout ++ " seconds"))]

/-- The `{"error": "Not connected. Call connect() first"}` dict. -/
def notConnectedJson : Json :=
  Json.obj [("error", Json.str "Not connected. Call connect() first")]

/-- The state right after `invoke_tool` registered its fresh message id:
`self.tool_events[message_id] = threading.Event()` (source line 157). -/
def invoke_registered (st : ClientState) (message_id : String) : ClientState :=
  { st with tool_events := dinsert st.tool_events (PyKey.str message_id) false }

/-- The listener activity observed while `invoke_tool` blocks on
`self.tool_events[message_id].wait(timeout)`, up to the moment the wait
call returns (signalled or expired). -/
def invoke_window (st : ClientState) (message_id : String)
    (window : List SSEEvent) (fails : Bool) : ClientState :=
  listener_run (fun s => eventSetAt s.tool_events (PyKey.str message_id))
    (invoke_registered st message_id) window fails

/-- The listener activity in the gap between the wait call returning and the
caller's cleanup/return lines executing: the listener thread runs unhindered
(no lock is held), so `post` events can be processed there with no wait
predicate stopping the run.  For the timeout branch the final state is
independent of where in the gap the caller's `del` of the wait-handle entry
falls: the listener only ever stores result payloads (unconditionally) and
signals an event object, never re-inserts a deleted wait-handle entry. -/
def invoke_post (st : ClientState) (message_id : String)
    (window : List SSEEvent) (fails : Bool) (post : List SSEEvent) : ClientState :=
  listener_run (fun _ => false) (invoke_window st message_id window fails) post false

/-- `MCPClient.invoke_tool` (source lines 144–189): register a wait event
under the fresh `message_id`, dispatch the invocation, return the dispatch
result directly when it contains `"error"`, otherwise block on the wait
event; on timeout delete the event entry (only it — the result map is not
touched) and return the timeout error dict; on success read the correlated
payload and delete both entries.  `window` is the listener activity during
the wait, `post` the activity between the wait's return and the caller's
cleanup/return. -/
def invoke_tool (st : ClientState) (message_id toolName : String)
    (dispatch : Except String Json) (timeout : Nat)
    (window : List SSEEvent) (fails : Bool) (post : List SSEEvent) :
    ClientState × InvokeResult × List Effect :=
  let kid := PyKey.str message_id
  let st1 := invoke_registered st message_id
  let sendOut := send_tool_invocation st1 message_id toolName dispatch
  let tr := Effect.register message_id :: sendOut.2
  match jsonErrorMember sendOut.1 with
  | MemberOutcome.typeErr => (st1, InvokeResult.typeErrorCrash, tr)
  | MemberOutcome.yes => (st1, InvokeResult.ret sendOut.1, tr)
  | MemberOutcome.no =>
    let st2 := invoke_window st message_id window fails
    let st3 := invoke_post st message_id window fails post
    if eventSetAt st2.tool_events kid then
      let payload := st3.tool_results kid
      ({ st3 with tool_events := derase st3.tool_events kid
                  tool_results := derase st3.tool_results kid },
       InvokeResult.resolvedRaw payload, tr)
    else
      ({ st3 with tool_events := derase st3.tool_events kid },
       InvokeResult.ret (timeoutDict timeout), tr)

/-- Whether `len(v)` succeeds on a JSON-decoded Python value (sized values:
`str`, `list`, `dict`); on the rest `len` raises `TypeError`. -/
def pyHasLen : Json → Bool
  | Json.str _ => true
  | Json.arr _ => true
  | Json.obj _ => true
  | _ => false

/-- The fetch-and-cache path of `get_tools` (source lines 130–142): any
raised transport/decode error is caught, returning `[]` with the cache
unchanged; on a decoded dict body, `data.get("tools", [])` is cached and
returned, unless taking `len(tools)` raises (non-sized value), which the
same handler turns into `[]`. -/
def get_tools_fetch (st : ClientState) (fetch : Except String Json) :
    ClientState × Json × List Effect :=
  match fetch with
  | Except.error _ => (st, Json.arr [], [Effect.getTools])
  | Except.ok body =>
    match body with
    | Json.obj fs =>
      let tools := (Json.getKey fs "tools").getD (Json.arr [])
      if pyHasLen tools then
        ({ st with tools_cache := some tools }, tools, [Effect.getTools])
      else (st, Json.arr [], [Effect.getTools])
    | _ => (st, Json.arr [], [Effect.getTools])

/-- `MCPClient.get_tools` (source lines 125–142): return the cached value
when it is truthy, else fetch. -/
def get_tools (st : ClientState) (fetch : Except String Json) :
    ClientState × Json × List Effect :=
  match st.tools_cache with
  | some c => if c.truthy then (st, c, []) else get_tools_fetch st fetch
  | Option.none => get_tools_fetch st fetch

/-- `MCPClient.disconnect` (source lines 223–231): clear `running`, join the
listener thread (no state effect), clear `connected`, `client_id` and
`tools_cache`. -/
def disconnect (st : ClientState) : ClientState :=
  { st with running := false
            connected := false
            client_id := Option.none
            tools_cache := Option.none }

/-- A client that completed a successful handshake with identity `abc123`. -/
def connectedState : ClientState :=
  { client_id := some (Json.str "abc123")
    running := true
    connected := true
    tools_cache := Option.none
    tool_results := emptyDict
    tool_events := emptyDict
    connection_event := true
    sse_thread := true }

/-- The decoded payload of a `tool_result` event carrying identifier `id`. -/
def toolResultJson (id : Json) : Json :=
  Json.obj [("type", Json.str "tool_result"), ("id", id)]

/-- A `tool_result` SSE event carrying identifier `id`. -/
def toolResultEvent (id : Json) : SSEEvent :=
  some (RawData.parsed (toolResultJson id))

/-- A `connected` SSE event carrying session identity `cid`. -/
def connectedEvent (cid : Json) : SSEEvent :=
  some (RawData.parsed (Json.obj [("type", Json.str "connected"), ("clientId", cid)]))

/-- Looking up the key just inserted. -/
theorem dinsert_self {V : Type} (m : PyDict V) (k : PyKey) (v : V) :
    dinsert m k v k = some v := by
  unfold dinsert; simp

/-- Inserting elsewhere does not change a lookup. -/
theorem dinsert_ne {V : Type} (m : PyDict V) (k q : PyKey) (v : V)
    (h : q ≠ k) : dinsert m k v q = m q := by
  unfold dinsert; simp [h]

/-- Looking up the key just deleted. -/
theorem derase_self {V : Type} (m : PyDict V) (k : PyKey) :
    derase m k k = Option.none := by
  unfold derase; simp

/-- A set wait event stays set when another entry is inserted. -/
theorem eventSetAt_dinsert_true (m : PyDict Bool) (mid k : PyKey)
    (h : eventSetAt m k = true) : eventSetAt (dinsert m mid true) k = true := by
  unfold eventSetAt dinsert at *
  by_cases hk : k = mid
  · simp [hk]
  · simpa [hk] using h

/-- `handle_json` never un-sets a set wait event. -/
theorem handle_json_events_mono (st : ClientState) (j : Json) (k : PyKey)
    (h : eventSetAt st.tool_events k = true) :
    eventSetAt (handle_json st j).1.tool_events k = true := by
  cases j with
  | obj fs =>
    unfold handle_json
    by_cases h1 : isTypeTag fs "connected"
    · simpa [h1] using h
    · by_cases h2 : isTypeTag fs "tool_result"
      · simp only [h1, h2, if_true, if_false, Bool.false_eq_true]
        cases hid : pyKeyOf (Json.getKey fs "id") with
        | none => simpa using h
        | some mid =>
          by_cases hm : (st.tool_events mid).isSome
          · simpa [hm] using eventSetAt_dinsert_true st.tool_events mid k h
          · simpa [hm] using h
      · simpa [h1, h2] using h
  | null => exact h
  | bool b => exact h
  | num n => exact h
  | str s => exact h
  | arr xs => exact h

/-- `listener_step` never un-sets a set wait event. -/
theorem listener_step_events_mono (st : ClientState) (ev : SSEEvent) (k : PyKey)
    (h : eventSetAt st.tool_events k = true) :
    eventSetAt (listener_step st ev).1.tool_events k = true := by
  unfold listener_step
  by_cases hr : st.running
  · simp only [hr, Bool.not_true, Bool.false_eq_true, if_false]
    cases ev with
    | none => exact h
    | some rd =>
      cases rd with
      | malformed s => exact h
      | parsed j => exact handle_json_events_mono st j k h
  · simp only [Bool.not_eq_true] at hr
    simp [hr]; exact h

/-- A listener run never un-sets a set wait event. -/
theorem listener_run_events_mono (stop : ClientState → Bool) (evs : List SSEEvent) :
    ∀ (st : ClientState) (fails : Bool) (k : PyKey),
      eventSetAt st.tool_events k = true →
      eventSetAt (listener_run stop st evs fails).tool_events k = true := by
  induction evs with
  | nil =>
    intro st fails k h
    unfold listener_run
    by_cases hs : stop st
    · simpa [hs] using h
    · by_cases hf : fails <;> simpa [hs, hf, listener_fail] using h
  | cons ev rest ih =>
    intro st fails k h
    unfold listener_run
    by_cases hs : stop st
    · simpa [hs] using h
    · simp only [hs, Bool.false_eq_true, if_false]
      rcases hstep : listener_step st ev with ⟨st1, ctl⟩
      have h1 : eventSetAt st1.tool_events k = true := by
        have := listener_step_events_mono st ev k h
        rwa [hstep] at this
      cases ctl with
      | cont => exact ih st1 fails k h1
      | brk => exact h1
      | crash => simpa [listener_fail] using h1

/-- While the wait event of a registered identifier stays unset, one
`handle_json` dispatch neither resolves that identifier's result slot nor
removes its registration. -/
theorem handle_json_pending_pres (st : ClientState) (j : Json) (k : PyKey)
    (hres : st.tool_results k = Option.none)
    (hmem : (st.tool_events k).isSome = true)
    (hflag : eventSetAt (handle_json st j).1.tool_events k = false) :
    (handle_json st j).1.tool_results k = Option.none ∧
      ((handle_json st j).1.tool_events k).isSome = true := by
  cases j with
  | obj fs =>
    unfold handle_json at *
    by_cases h1 : isTypeTag fs "connected"
    · exact ⟨by simpa [h1] using hres, by simpa [h1] using hmem⟩
    · by_cases h2 : isTypeTag fs "tool_result"
      · simp only [h1, h2, if_true, if_false, Bool.false_eq_true] at hflag ⊢
        cases hid : pyKeyOf (Json.getKey fs "id") with
        | none => exact ⟨hres, hmem⟩
        | some mid =>
          simp only [hid] at hflag ⊢
          by_cases hk : k = mid
          · subst hk
            simp only [hmem, if_true] at hflag ⊢
            exfalso
            have : eventSetAt (dinsert st.tool_events k true) k = true := by
              unfold eventSetAt
              rw [dinsert_self]
              rfl
            simp only [this] at hflag
            cases hflag
          · have hne : k ≠ mid := hk
            by_cases hm : (st.tool_events mid).isSome
            · refine ⟨?_, ?_⟩
              · simpa [hm, dinsert_ne st.tool_results mid k (Json.obj fs) hne] using hres
              · simpa [hm, dinsert_ne st.tool_events mid k true hne] using hmem
            · refine ⟨?_, ?_⟩
              · simpa [hm, dinsert_ne st.tool_results mid k (Json.obj fs) hne] using hres
              · simpa [hm] using hmem
      · exact ⟨by simpa [h1, h2] using hres, by simpa [h1, h2] using hmem⟩
  | null => exact ⟨hres, hmem⟩
  | bool b => exact ⟨hres, hmem⟩
  | num n => exact ⟨hres, hmem⟩
  | str s => exact ⟨hres, hmem⟩
  | arr xs => exact ⟨hres, hmem⟩

/-- `listener_step` version of `handle_json_pending_pres`. -/
theorem listener_step_pending_pres (st : ClientState) (ev : SSEEvent) (k : PyKey)
    (hres : st.tool_results k = Option.none)
    (hmem : (st.tool_events k).isSome = true)
    (hflag : eventSetAt (listener_step st ev).1.tool_events k = false) :
    (listener_step st ev).1.tool_results k = Option.none ∧
      ((listener_step st ev).1.tool_events k).isSome = true := by
  unfold listener_step at *
  by_cases hr : st.running
  · simp only [hr, Bool.not_true, Bool.false_eq_true, if_false] at hflag ⊢
    cases ev with
    | none => exact ⟨hres, hmem⟩
    | some rd =>
      cases rd with
      | malformed s => exact ⟨hres, hmem⟩
      | parsed j => exact handle_json_pending_pres st j k hres hmem hflag
  · simp only [Bool.not_eq_true] at hr
    simp only [hr, Bool.not_false, if_true]
    exact ⟨hres, hmem⟩

/-- If a listener run ends with the wait event of a registered identifier
still unset, that identifier's result slot is still unresolved (and the
registration still present) at the end of the run. -/
theorem listener_run_pending_pres (stop : ClientState → Bool) (evs : List SSEEvent) :
    ∀ (st : ClientState) (fails : Bool) (k : PyKey),
      st.tool_results k = Option.none →
      (st.tool_events k).isSome = true →
      eventSetAt (listener_run stop st evs fails).tool_events k = false →
      (listener_run stop st evs fails).tool_results k = Option.none := by
  induction evs with
  | nil =>
    intro st fails k hres hmem hflag
    unfold listener_run
    by_cases hs : stop st
    · simpa [hs] using hres
    · by_cases hf : fails <;> simpa [hs, hf, listener_fail] using hres
  | cons ev rest ih =>
    intro st fails k hres hmem hflag
    unfold listener_run at hflag ⊢
    by_cases hs : stop st
    · simpa [hs] using hres
    · simp only [hs, Bool.false_eq_true, if_false] at hflag ⊢
      rcases hstep : listener_step st ev with ⟨st1, ctl⟩
      simp only [hstep] at hflag
      have hflag1 : eventSetAt st1.tool_events k = false := by
        by_contra hcon
        simp only [Bool.not_eq_false] at hcon
        cases ctl with
        | cont =>
          have := listener_run_events_mono stop rest st1 fails k hcon
          simp only [this] at hflag
          cases hflag
        | brk => simp only [hcon] at hflag; cases hflag
        | crash =>
          have : eventSetAt (listener_fail st1).tool_events k = true := by
            simpa [listener_fail] using hcon
          simp only [this] at hflag
          cases hflag
      have hp := listener_step_pending_pres st ev k hres hmem (by rwa [hstep])
      rw [hstep] at hp
      cases ctl with
      | cont => exact ih st1 fails k hp.1 hp.2 hflag
      | brk => exact hp.1
      | crash => simpa [listener_fail] using hp.1

/-- No listener-loop iteration un-sets the handshake event. -/
theorem listener_step_conn_mono (st : ClientState) (ev : SSEEvent)
    (h : st.connection_event = true) :
    (listener_step st ev).1.connection_event = true := by
  unfold listener_step
  by_cases hr : st.running
  · simp only [hr, Bool.not_true, Bool.false_eq_true, if_false]
    cases ev with
    | none => exact h
    | some rd =>
      cases rd with
      | malformed s => exact h
      | parsed j =>
        cases j with
        | obj fs =>
          unfold handle_json
          by_cases h1 : isTypeTag fs "connected"
          · simp [h1]
          · by_cases h2 : isTypeTag fs "tool_result"
            · simp only [h1, h2, if_true, if_false, Bool.false_eq_true]
              cases hid : pyKeyOf (Json.getKey fs "id") with
              | none => exact h
              | some mid =>
                by_cases hm : (st.tool_events mid).isSome <;> simpa [hm] using h
            · simpa [h1, h2] using h
        | null => exact h
        | bool b => exact h
        | num n => exact h
        | str s => exact h
        | arr xs => exact h
  · simp only [Bool.not_eq_true] at hr
    simp [hr]; exact h

/-- A listener run never un-sets the handshake event. -/
theorem listener_run_conn_mono (stop : ClientState → Bool) (evs : List SSEEvent) :
    ∀ (st : ClientState) (fails : Bool),
      st.connection_event = true →
      (listener_run stop st evs fails).connection_event = true := by
  induction evs with
  | nil =>
    intro st fails h
    unfold listener_run
    by_cases hs : stop st
    · simpa [hs] using h
    · by_cases hf : fails <;> simp [hs, hf, listener_fail, h]
  | cons ev rest ih =>
    intro st fails h
    unfold listener_run
    by_cases hs : stop st
    · simpa [hs] using h
    · simp only [hs, Bool.false_eq_true, if_false]
      rcases hstep : listener_step st ev with ⟨st1, ctl⟩
      have h1 : st1.connection_event = true := by
        have := listener_step_conn_mono st ev h
        rwa [hstep] at this
      cases ctl with
      | cont => exact ih st1 fails h1
      | brk => exact h1
      | crash => simp [listener_fail, h1]

/-- An iteration that leaves the handshake event unset leaves the connected
flag (and the session identity) unchanged. -/
theorem listener_step_conn_pres (st : ClientState) (ev : SSEEvent)
    (hflag : (listener_step st ev).1.connection_event = false) :
    (listener_step st ev).1.connected = st.connected ∧
      (listener_step st ev).1.client_id = st.client_id := by
  unfold listener_step at *
  by_cases hr : st.running
  · simp only [hr, Bool.not_true, Bool.false_eq_true, if_false] at hflag ⊢
    cases ev with
    | none => exact ⟨rfl, rfl⟩
    | some rd =>
      cases rd with
      | malformed s => exact ⟨rfl, rfl⟩
      | parsed j =>
        cases j with
        | obj fs =>
          unfold handle_json at *
          by_cases h1 : isTypeTag fs "connected"
          · simp only [h1, if_true] at hflag
            cases hflag
          · by_cases h2 : isTypeTag fs "tool_result"
            · simp only [h1, h2, if_true, if_false, Bool.false_eq_true] at hflag ⊢
              cases hid : pyKeyOf (Json.getKey fs "id") with
              | none => exact ⟨rfl, rfl⟩
              | some mid =>
                by_cases hm : (st.tool_events mid).isSome <;> simp [hm]
            · simp [h1, h2]
        | null => exact ⟨rfl, rfl⟩
        | bool b => exact ⟨rfl, rfl⟩
        | num n => exact ⟨rfl, rfl⟩
        | str s => exact ⟨rfl, rfl⟩
        | arr xs => exact ⟨rfl, rfl⟩
  · simp only [Bool.not_eq_true] at hr
    simp [hr]

/-- A listener run that ends with the handshake event unset leaves the
connected flag unchanged: a `connect` that times out finds the client no
more connected than before. -/
theorem listener_run_conn_pres (stop : ClientState → Bool) (evs : List SSEEvent) :
    ∀ (st : ClientState) (fails : Bool),
      (listener_run stop st evs fails).connection_event = false →
      (listener_run stop st evs fails).connected = st.connected := by
  induction evs with
  | nil =>
    intro st fails hflag
    unfold listener_run at *
    by_cases hs : stop st
    · simp [hs]
    · by_cases hf : fails
      · simp only [hs, hf, Bool.false_eq_true, if_false, if_true] at hflag
        simp only [listener_fail] at hflag
        cases hflag
      · simp [hs, hf]
  | cons ev rest ih =>
    intro st fails hflag
    unfold listener_run at hflag ⊢
    by_cases hs : stop st
    · simp [hs]
    · simp only [hs, Bool.false_eq_true, if_false] at hflag ⊢
      rcases hstep : listener_step st ev with ⟨st1, ctl⟩
      simp only [hstep] at hflag
      have hflag1 : st1.connection_event = false := by
        by_contra hcon
        simp only [Bool.not_eq_false] at hcon
        cases ctl with
        | cont =>
          have := listener_run_conn_mono stop rest st1 fails hcon
          simp only [this] at hflag
          cases hflag
        | brk => simp only [hcon] at hflag; cases hflag
        | crash =>
          have : (listener_fail st1).connection_event = true := by
            simp [listener_fail]
          simp only [this] at hflag
          cases hflag
      have hp := listener_step_conn_pres st ev (by rwa [hstep])
      rw [hstep] at hp
      cases ctl with
      | cont => rw [ih st1 fails hflag, hp.1]
      | brk => exact hp.1
      | crash => simpa [listener_fail] using hp.1

/-- Claim C8 (confirmed): `disconnect` clears the session identity, the
connected flag and the cached tool list, and a second `disconnect` succeeds
and leaves the state identical (idempotence). -/
theorem c8_disconnect_clears_idem (st : ClientState) :
    (disconnect st).client_id = Option.none ∧
    (disconnect st).connected = false ∧
    (disconnect st).tools_cache = Option.none ∧
    disconnect (disconnect st) = disconnect st :=
  ⟨rfl, rfl, rfl, rfl⟩

/-- Claim C9 (confirmed): an event whose data is not valid JSON is logged
and the listener continues with the loop: the state — connected flag,
session identity and every correlation-table entry — is unchanged and the
loop control is `cont`, never a loop exit. -/
theorem c9_malformed_logged_continue (st : ClientState) (raw : String)
    (hrun : st.running = true) :
    listener_step st (some (RawData.malformed raw)) = (st, LoopCtl.cont) := by
  unfold listener_step
  simp [hrun]

/-- Witness for C9 at a concrete client and payload. -/
theorem c9_witness :
    connectedState.running = true ∧
    listener_step connectedState (some (RawData.malformed "sse comment, not json"))
      = (connectedState, LoopCtl.cont) :=
  ⟨rfl, c9_malformed_logged_continue connectedState "sse comment, not json" rfl⟩

/-- Claim C4 (code bug, evaluated at the failing input): on a dispatch
transport error the call returns the invocation failure immediately (the
trace shows the attempted POST and no wait), but the entry registered for
the generated identifier is still present in the correlation table after
the call — the code omits the deregistration the claim requires. -/
theorem c4_dispatch_error_leaks :
    (invoke_tool connectedState "m1" "readDirectory"
        (Except.error "Connection refused") 30 [] false []).2.1
      = InvokeResult.ret (Json.obj [("error", Json.str "Connection refused")]) ∧
    (invoke_tool connectedState "m1" "readDirectory"
        (Except.error "Connection refused") 30 [] false []).2.2
      = [Effect.register "m1", Effect.postMessages "m1" "readDirectory"] ∧
    (invoke_tool connectedState "m1" "readDirectory"
        (Except.error "Connection refused") 30 [] false []).1.tool_events
        (PyKey.str "m1") = some false :=
  ⟨rfl, rfl, rfl⟩

/-- Claim C5 (confirmed): an invocation attempted with no session identity
assigned returns the not-connected error immediately: no POST to the
submission endpoint appears in the trace, and the result and final state do
not depend on the wait window — the call never blocks on the wait
primitive. -/
theorem c5_not_connected_fails_fast (st : ClientState) (message_id toolName : String)
    (dispatch : Except String Json) (timeout : Nat)
    (window : List SSEEvent) (fails : Bool) (post : List SSEEvent)
    (hid : st.client_id = Option.none) :
    invoke_tool st message_id toolName dispatch timeout window fails post =
      (invoke_registered st message_id, InvokeResult.ret notConnectedJson,
        [Effect.register message_id]) := by
  have hsend : send_tool_invocation (invoke_registered st message_id) message_id toolName dispatch
      = (notConnectedJson, []) := by
    unfold send_tool_invocation
    simp [invoke_registered, hid, pyTruthy, notConnectedJson]
  unfold invoke_tool
  simp only [hsend]
  rfl

/-- Witness for C5 at a freshly initialised client. -/
theorem c5_witness :
    initialState.client_id = Option.none ∧
    invoke_tool initialState "m7" "readDirectory" (Except.ok (Json.obj [])) 5
        [toolResultEvent (Json.str "m7")] false [toolResultEvent (Json.str "m7")] =
      (invoke_registered initialState "m7", InvokeResult.ret notConnectedJson,
        [Effect.register "m7"]) :=
  ⟨rfl, c5_not_connected_fails_fast initialState "m7" "readDirectory"
    (Except.ok (Json.obj [])) 5 [toolResultEvent (Json.str "m7")] false
    [toolResultEvent (Json.str "m7")] rfl⟩

/-- Claim C1 counterexample: a `tool_result` event whose identifier has no
pending entry is not discarded — after processing, the result-payload map
holds an entry for that identifier (here on a client with an empty
correlation table). -/
theorem c1_counterexample :
    connectedState.tool_events (PyKey.str "orphan") = Option.none ∧
    (listener_step connectedState (toolResultEvent (Json.str "orphan"))).1.tool_results
        (PyKey.str "orphan") = some (toolResultJson (Json.str "orphan")) :=
  ⟨rfl, rfl⟩

/-- Claim C1 (amended): for a `tool_result` event whose identifier has no
pending entry, the Listener signals no wait primitive and leaves the
wait-handle map and every other result entry unchanged, and the loop
continues — but it does store the event payload into the result-payload map
under that identifier rather than discarding it. -/
theorem c1_orphan_stored_unsignaled (st : ClientState)
    (fs : List (String × Json)) (mid : PyKey)
    (hrun : st.running = true)
    (hconn : isTypeTag fs "connected" = false)
    (htool : isTypeTag fs "tool_result" = true)
    (hid : pyKeyOf (Json.getKey fs "id") = some mid)
    (habs : st.tool_events mid = Option.none) :
    listener_step st (some (RawData.parsed (Json.obj fs))) =
      ({ st with tool_results := dinsert st.tool_results mid (Json.obj fs) },
        LoopCtl.cont) ∧
    (listener_step st (some (RawData.parsed (Json.obj fs)))).1.tool_events
      = st.tool_events ∧
    (∀ q : PyKey, q ≠ mid →
      (listener_step st (some (RawData.parsed (Json.obj fs)))).1.tool_results q
        = st.tool_results q) := by
  have heq : listener_step st (some (RawData.parsed (Json.obj fs))) =
      ({ st with tool_results := dinsert st.tool_results mid (Json.obj fs) },
        LoopCtl.cont) := by
    unfold listener_step handle_json
    simp [hrun, hconn, htool, hid, habs]
  refine ⟨heq, ?_, ?_⟩
  · rw [heq]
  · intro q hq
    rw [heq]
    exact dinsert_ne st.tool_results mid q (Json.obj fs) hq

/-- Witness for C1 at a concrete orphan `tool_result` event. -/
theorem c1_witness :
    listener_step connectedState (toolResultEvent (Json.str "late")) =
      ({ connectedState with
           tool_results :=
             dinsert connectedState.tool_results (PyKey.str "late")
               (toolResultJson (Json.str "late")) }, LoopCtl.cont) ∧
    (listener_step connectedState (toolResultEvent (Json.str "late"))).1.tool_events
      = connectedState.tool_events ∧
    (listener_step connectedState (toolResultEvent (Json.str "late"))).1.tool_results
        (PyKey.str "other") = connectedState.tool_results (PyKey.str "other") :=
  have h := c1_orphan_stored_unsignaled connectedState
    [("type", Json.str "tool_result"), ("id", Json.str "late")] (PyKey.str "late")
    rfl rfl rfl rfl rfl
  ⟨h.1, h.2.1, h.2.2 (PyKey.str "other") (by decide)⟩

/-- Claim C2 counterexample: an `invoke_tool` call that times out, with a
matching `tool_result` processed in the gap between the wait's expiry and
the call's return: the call returns the result-timeout failure and the
wait-handle entry is gone, but the result-payload map holds an entry for the
generated identifier at the moment the call returns — the identifier is not
absent from both maps, and the entry is never cleaned up afterwards. -/
theorem c2_counterexample :
    (invoke_tool connectedState "m1" "readDirectory" (Except.ok (Json.obj []))
        30 [] false [toolResultEvent (Json.str "m1")]).2.1
      = InvokeResult.ret (timeoutDict 30) ∧
    (invoke_tool connectedState "m1" "readDirectory" (Except.ok (Json.obj []))
        30 [] false [toolResultEvent (Json.str "m1")]).1.tool_events
        (PyKey.str "m1") = Option.none ∧
    (invoke_tool connectedState "m1" "readDirectory" (Except.ok (Json.obj []))
        30 [] false [toolResultEvent (Json.str "m1")]).1.tool_results
        (PyKey.str "m1") = some (toolResultJson (Json.str "m1")) :=
  ⟨rfl, rfl, rfl⟩

/-- Claim C2 (amended): an `invoke_tool` call that reaches its wait and
times out returns the result-timeout failure with the wait-handle entry for
the generated identifier deleted; but the timeout path performs no
result-payload-map cleanup — the result map at return is exactly what the
listener's processing up to the return left there.  In particular the slot
is still unresolved at the wait's expiry, and the identifier is absent from
the result map only when the expiry-to-return gap stored nothing for it; a
matching result processed in the gap (or arriving later) leaves a leaked
entry that nothing removes, so such entries accumulate across repeated
timed-out calls. -/
theorem c2_timeout_cleanup (st : ClientState) (message_id toolName : String)
    (dispatch : Except String Json) (timeout : Nat)
    (window : List SSEEvent) (fails : Bool) (post : List SSEEvent)
    (hnoerr : jsonErrorMember
        (send_tool_invocation (invoke_registered st message_id)
          message_id toolName dispatch).1 = MemberOutcome.no)
    (htimeout : eventSetAt (invoke_window st message_id window fails).tool_events
        (PyKey.str message_id) = false) :
    (invoke_tool st message_id toolName dispatch timeout window fails post).2.1
        = InvokeResult.ret (timeoutDict timeout) ∧
    (invoke_tool st message_id toolName dispatch timeout window fails post).1.tool_events
        (PyKey.str message_id) = Option.none ∧
    (invoke_tool st message_id toolName dispatch timeout window fails post).1.tool_results
        = (invoke_post st message_id window fails post).tool_results ∧
    (st.tool_results (PyKey.str message_id) = Option.none →
      (invoke_window st message_id window fails).tool_results (PyKey.str message_id)
        = Option.none) ∧
    ((invoke_post st message_id window fails post).tool_results (PyKey.str message_id)
        = Option.none →
      (invoke_tool st message_id toolName dispatch timeout window fails post).1.tool_results
        (PyKey.str message_id) = Option.none) := by
  have h4 : st.tool_results (PyKey.str message_id) = Option.none →
      (invoke_window st message_id window fails).tool_results (PyKey.str message_id)
        = Option.none := by
    intro hfresh
    exact listener_run_pending_pres
      (fun s => eventSetAt s.tool_events (PyKey.str message_id)) window
      (invoke_registered st message_id) fails (PyKey.str message_id) hfresh
      (by simp [invoke_registered, dinsert_self]) htimeout
  have h3 : (invoke_tool st message_id toolName dispatch timeout window fails post).1.tool_results
      = (invoke_post st message_id window fails post).tool_results := by
    unfold invoke_tool
    simp only [hnoerr, htimeout, Bool.false_eq_true, if_false]
  refine ⟨?_, ?_, h3, h4, ?_⟩
  · unfold invoke_tool
    simp only [hnoerr, htimeout, Bool.false_eq_true, if_false]
  · unfold invoke_tool
    simp only [hnoerr, htimeout, Bool.false_eq_true, if_false]
    exact derase_self _ _
  · intro h
    rw [h3]
    exact h

/-- Witness for C2: one timed-out call whose gap delivers the matching
result (the leaked entry persists as the listener stored it), and one whose
gap delivers nothing (the identifier is then absent from both maps). -/
theorem c2_witness :
    ((invoke_tool connectedState "m1" "readDirectory"
        (Except.ok (Json.obj [("status", Json.str "accepted")])) 30
        [toolResultEvent (Json.str "unrelated")] false
        [toolResultEvent (Json.str "m1")]).2.1
      = InvokeResult.ret (timeoutDict 30) ∧
    (invoke_tool connectedState "m1" "readDirectory"
        (Except.ok (Json.obj [("status", Json.str "accepted")])) 30
        [toolResultEvent (Json.str "unrelated")] false
        [toolResultEvent (Json.str "m1")]).1.tool_events
        (PyKey.str "m1") = Option.none ∧
    (invoke_tool connectedState "m1" "readDirectory"
        (Except.ok (Json.obj [("status", Json.str "accepted")])) 30
        [toolResultEvent (Json.str "unrelated")] false
        [toolResultEvent (Json.str "m1")]).1.tool_results
      = (invoke_post connectedState "m1" [toolResultEvent (Json.str "unrelated")] false
          [toolResultEvent (Json.str "m1")]).tool_results) ∧
    (invoke_tool connectedState "m2" "readDirectory"
        (Except.ok (Json.obj [("status", Json.str "accepted")])) 30
        [toolResultEvent (Json.str "unrelated")] false []).1.tool_results
        (PyKey.str "m2") = Option.none :=
  have ha := c2_timeout_cleanup connectedState "m1" "readDirectory"
    (Except.ok (Json.obj [("status", Json.str "accepted")])) 30
    [toolResultEvent (Json.str "unrelated")] false
    [toolResultEvent (Json.str "m1")] rfl rfl
  have hb := c2_timeout_cleanup connectedState "m2" "readDirectory"
    (Except.ok (Json.obj [("status", Json.str "accepted")])) 30
    [toolResultEvent (Json.str "unrelated")] false [] rfl rfl
  ⟨⟨ha.1, ha.2.1, ha.2.2.1⟩, hb.2.2.2.2 rfl⟩

/-- Claim C6 (confirmed): every `invoke_tool` call registers the generated
identifier exactly once, as the very first effect of the call — strictly
before any POST of the invocation message, in every outcome branch. -/
theorem c6_register_precedes_dispatch (st : ClientState) (message_id toolName : String)
    (dispatch : Except String Json) (timeout : Nat)
    (window : List SSEEvent) (fails : Bool) (post : List SSEEvent) :
    ∃ rest : List Effect,
      (invoke_tool st message_id toolName dispatch timeout window fails post).2.2 =
        Effect.register message_id :: rest ∧
      Effect.register message_id ∉ rest := by
  refine ⟨(send_tool_invocation (invoke_registered st message_id)
      message_id toolName dispatch).2, ?_, ?_⟩
  · unfold invoke_tool
    cases hm : jsonErrorMember (send_tool_invocation (invoke_registered st message_id)
        message_id toolName dispatch).1 with
    | typeErr => simp [hm]
    | yes => simp [hm]
    | no =>
      simp only [hm]
      by_cases hev : eventSetAt (invoke_window st message_id window fails).tool_events
          (PyKey.str message_id) <;> simp [hev]
  · unfold send_tool_invocation
    by_cases hc : pyTruthy (invoke_registered st message_id).client_id
    · cases dispatch with
      | ok body =>
        simp only [hc, if_true, List.mem_singleton]
        intro hmem
        exact Effect.noConfusion hmem
      | error e =>
        simp only [hc, if_true, List.mem_singleton]
        intro hmem
        exact Effect.noConfusion hmem
    · simp [hc]

/-- Unfolding equation for a listener run on a cons cell. -/
theorem listener_run_cons_eq (stop : ClientState → Bool) (st : ClientState)
    (ev : SSEEvent) (rest : List SSEEvent) (fails : Bool) :
    listener_run stop st (ev :: rest) fails =
      if stop st then st
      else
        match listener_step st ev with
        | (st1, LoopCtl.cont) => listener_run stop st1 rest fails
        | (st1, LoopCtl.brk) => st1
        | (st1, LoopCtl.crash) => listener_fail st1 := rfl

/-- A run whose stop predicate already holds returns at once: the waiting
caller has been signalled and resumes. -/
theorem listener_run_stopped (stop : ClientState → Bool) (evs : List SSEEvent)
    (st : ClientState) (fails : Bool) (h : stop st = true) :
    listener_run stop st evs fails = st := by
  cases evs <;> unfold listener_run <;> simp [h]

/-- A `connect` call that returns normally returns exactly the `client_id`
attribute of the state it leaves behind. -/
theorem connect_ok_client_id (st st1 : ClientState) (w : List SSEEvent) (f : Bool)
    (cid : Option Json) (tr : List Effect)
    (h : connect st w f = (st1, ConnectResult.ok cid, tr)) :
    cid = st1.client_id := by
  unfold connect at h
  by_cases hc : st.connected
  · simp only [hc, if_true, Prod.mk.injEq] at h
    obtain ⟨h1, h2, h3⟩ := h
    cases h2
    rw [← h1]
  · simp only [hc, Bool.false_eq_true, if_false] at h
    by_cases he : (connect_window st w f).connection_event
    · simp only [he, if_true, Prod.mk.injEq] at h
      obtain ⟨h1, h2, h3⟩ := h
      cases h2
      rw [← h1]
    · simp only [he, Bool.false_eq_true, if_false, Prod.mk.injEq] at h
      obtain ⟨h1, h2, h3⟩ := h
      cases h2

/-- Claim C7 (confirmed): a second `connect` on a client left connected by a
first successful `connect` returns the same session identity, changes no
state, and starts no second listener (its effect trace is empty, with no
`startListener`). -/
theorem c7_connect_idempotent (st0 st1 : ClientState) (w w2 : List SSEEvent)
    (f f2 : Bool) (cid : Option Json) (tr : List Effect)
    (h1 : connect st0 w f = (st1, ConnectResult.ok cid, tr))
    (h2 : st1.connected = true) :
    connect st1 w2 f2 = (st1, ConnectResult.ok cid, []) := by
  have hcid := connect_ok_client_id st0 st1 w f cid tr h1
  unfold connect
  rw [hcid]
  simp [h2]

/-- Witness for C7: after a successful handshake the repeated `connect`
returns the same identity with no new listener. -/
theorem c7_witness :
    connect connectedState [] false =
      (connectedState, ConnectResult.ok (some (Json.str "abc123")), []) :=
  c7_connect_idempotent initialState connectedState
    [connectedEvent (Json.str "abc123")] [] false false
    (some (Json.str "abc123")) [Effect.startListener] rfl rfl

/-- Claim C3 counterexample: when the Listener fails with a transport error
before any handshake event, `connect` does not fail with the
connection-timeout condition — it returns successfully, carrying the absent
session identity, and the client is still not connected. -/
theorem c3_counterexample :
    (connect initialState [] true).2.1 = ConnectResult.ok Option.none ∧
    (connect initialState [] true).1.connected = false ∧
    (connect initialState [] true).1.client_id = Option.none :=
  ⟨rfl, rfl, rfl⟩

/-- Claim C3 (amended): on a non-connected client, if the handshake window
delivers a `connected` event first, `connect` returns the session identity
that event carries and the client is connected; if the wait expires with the
handshake event never signalled, `connect` fails with the connection-timeout
condition and the client remains disconnected; but a Listener failure before
the handshake signals the handshake event, making `connect` return normally
with the absent identity instead of failing. -/
theorem c3_connect_behavior (st : ClientState) (window : List SSEEvent) (fails : Bool)
    (hconn : st.connected = false) :
    ((connect_window st window fails).connection_event = false →
      (connect st window fails).2.1 = ConnectResult.timeoutFailure ∧
      (connect st window fails).1.connected = false) ∧
    (∀ (fs : List (String × Json)) (rest : List SSEEvent),
      window = some (RawData.parsed (Json.obj fs)) :: rest →
      isTypeTag fs "connected" = true →
      st.connection_event = false →
      (connect st window fails).2.1 = ConnectResult.ok (Json.getKey fs "clientId") ∧
      (connect st window fails).1.connected = true) := by
  constructor
  · intro hto
    have heq : connect st window fails =
        (connect_window st window fails, ConnectResult.timeoutFailure,
          [Effect.startListener]) := by
      unfold connect
      simp [hconn, hto]
    refine ⟨by rw [heq], ?_⟩
    rw [heq]
    have hpres := listener_run_conn_pres connect_stop window
      { st with running := true, sse_thread := true } fails hto
    exact hpres.trans hconn
  · intro fs rest hw htag hce
    subst hw
    have hstop1 : connect_stop { st with running := true, sse_thread := true } = false := by
      simp [connect_stop, hce]
    have hstep : listener_step { st with running := true, sse_thread := true }
        (some (RawData.parsed (Json.obj fs))) =
        ({ st with running := true, sse_thread := true,
                   client_id := Json.getKey fs "clientId",
                   connected := true, connection_event := true }, LoopCtl.cont) := by
      unfold listener_step handle_json
      simp [htag]
    have hrun : connect_window st (some (RawData.parsed (Json.obj fs)) :: rest) fails =
        { st with running := true, sse_thread := true,
                  client_id := Json.getKey fs "clientId",
                  connected := true, connection_event := true } := by
      unfold connect_window
      rw [listener_run_cons_eq, hstop1]
      simp only [Bool.false_eq_true, if_false]
      rw [hstep]
      exact listener_run_stopped connect_stop rest _ fails rfl
    have heq : connect st (some (RawData.parsed (Json.obj fs)) :: rest) fails =
        ({ st with running := true, sse_thread := true,
                   client_id := Json.getKey fs "clientId",
                   connected := true, connection_event := true },
          ConnectResult.ok (Json.getKey fs "clientId"), [Effect.startListener]) := by
      unfold connect
      rw [hrun]
      simp [hconn]
    exact ⟨by rw [heq], by rw [heq]⟩

/-- Witness for C3: the timeout branch at an empty window without listener
failure, and the handshake branch at a window whose first event is the
`connected` event. -/
theorem c3_witness :
    ((connect initialState [] false).2.1 = ConnectResult.timeoutFailure ∧
      (connect initialState [] false).1.connected = false) ∧
    ((connect initialState [connectedEvent (Json.str "abc123")] false).2.1
        = ConnectResult.ok (some (Json.str "abc123")) ∧
      (connect initialState [connectedEvent (Json.str "abc123")] false).1.connected
        = true) :=
  ⟨(c3_connect_behavior initialState [] false rfl).1 rfl,
   (c3_connect_behavior initialState [connectedEvent (Json.str "abc123")] false rfl).2
     [("type", Json.str "connected"), ("clientId", Json.str "abc123")] [] rfl rfl rfl⟩

/-- Claim C10 counterexample: a fetch that succeeds with an empty tool list
does store that empty list in the cache attribute — the cache is not left
unset, contradicting that only a non-empty fetched list is stored. -/
theorem c10_counterexample :
    connectedState.tools_cache = Option.none ∧
    (get_tools connectedState (Except.ok (Json.obj [("tools", Json.arr [])]))).1.tools_cache
      = some (Json.arr []) ∧
    (get_tools connectedState (Except.ok (Json.obj [("tools", Json.arr [])]))).2.1
      = Json.arr [] :=
  ⟨rfl, rfl, rfl⟩

/-- Claim C10 (amended): `get_tools` never raises; a transport error returns
an empty list with the cache unchanged, so the next call fetches again; a
truthy (non-empty) cached value is returned as-is with no fetch; a falsy
cached value (such as a stored empty list) does not satisfy the cache check,
so a fetch is performed on every such call; and a fetched `tools` value that
`len` accepts is stored in the cache even when it is an empty list. -/
theorem c10_get_tools_behavior (st : ClientState) (e : String)
    (fetch : Except String Json) (c : Json) :
    (st.tools_cache = Option.none →
      get_tools st (Except.error e) = (st, Json.arr [], [Effect.getTools])) ∧
    (st.tools_cache = some c → c.truthy = true →
      get_tools st fetch = (st, c, [])) ∧
    (st.tools_cache = some c → c.truthy = false →
      (get_tools st fetch).2.2 = [Effect.getTools]) ∧
    (st.tools_cache = Option.none →
      ∀ (fs : List (String × Json)) (tools : Json),
        fetch = Except.ok (Json.obj fs) →
        Json.getKey fs "tools" = some tools →
        pyHasLen tools = true →
        get_tools st fetch =
          ({ st with tools_cache := some tools }, tools, [Effect.getTools])) := by
  have htrace : ∀ d : Except String Json,
      (get_tools_fetch st d).2.2 = [Effect.getTools] := by
    intro d
    unfold get_tools_fetch
    cases d with
    | error err => rfl
    | ok body =>
      cases body with
      | obj fs =>
        by_cases hl : pyHasLen ((Json.getKey fs "tools").getD (Json.arr []))
        · simp [hl]
        · simp [hl]
      | null => rfl
      | bool b => rfl
      | num n => rfl
      | str s => rfl
      | arr xs => rfl
  refine ⟨?_, ?_, ?_, ?_⟩
  · intro hc
    unfold get_tools
    rw [hc]
    rfl
  · intro hc ht
    unfold get_tools
    rw [hc]
    simp [ht]
  · intro hc ht
    unfold get_tools
    rw [hc]
    simp only [ht, Bool.false_eq_true, if_false]
    exact htrace fetch
  · intro hc fs tools hf hk hl
    unfold get_tools
    rw [hc, hf]
    unfold get_tools_fetch
    simp [hk, hl]

/-- Witness for C10: the transport-error branch, the truthy-cache branch and
the falsy-cache refetch branch at concrete clients. -/
theorem c10_witness :
    (get_tools initialState (Except.error "connection refused")
      = (initialState, Json.arr [], [Effect.getTools])) ∧
    (get_tools { connectedState with tools_cache := some (Json.arr [Json.str "readFile"]) }
        (Except.error "unused")
      = ({ connectedState with tools_cache := some (Json.arr [Json.str "readFile"]) },
          Json.arr [Json.str "readFile"], [])) ∧
    ((get_tools { connectedState with tools_cache := some (Json.arr []) }
        (Except.ok (Json.obj [("tools", Json.arr [])]))).2.2 = [Effect.getTools]) ∧
    (get_tools connectedState (Except.ok (Json.obj [("tools", Json.arr [])]))
      = ({ connectedState with tools_cache := some (Json.arr []) },
          Json.arr [], [Effect.getTools])) :=
  ⟨(c10_get_tools_behavior initialState "connection refused"
      (Except.error "connection refused") Json.null).1 rfl,
   (c10_get_tools_behavior
      { connectedState with tools_cache := some (Json.arr [Json.str "readFile"]) }
      "unused" (Except.error "unused") (Json.arr [Json.str "readFile"])).2.1 rfl rfl,
   (c10_get_tools_behavior { connectedState with tools_cache := some (Json.arr []) }
      "unused" (Except.ok (Json.obj [("tools", Json.arr [])])) (Json.arr [])).2.2.1 rfl rfl,
   (c10_get_tools_behavior connectedState "unused"
      (Except.ok (Json.obj [("tools", Json.arr [])])) Json.null).2.2.2 rfl
      [("tools", Json.arr [])] (Json.arr []) rfl rfl rfl⟩
